import Mathlib

/-!
Verification development for the realtyphotoai repository.

Shallow embedding of `src/src/services/ai_service.py` (classes
`EnhancementDatabase` and `RealEstateAIService`) and of the enum/record
types of `src/src/models/schemas.py`.  The two CLIP/BLIP model calls are
opaque external services; they are modelled by their observable result:
the caption model yields an `Except String String` and each classifier
call yields an `Except String (List ℚ)` (the softmax probability vector,
rationals standing for the real-valued probabilities), `Except.error`
standing for a raised exception inside the corresponding `try` block.
-/

/-- Substring test on character lists: Python's `pat in s`. -/
def strContainsAux (pat : List Char) : List Char → Bool
  | [] => pat.isEmpty
  | c :: cs => pat.isPrefixOf (c :: cs) || strContainsAux pat cs

/-- Python's substring operator `pat in s` on strings. -/
def strContains (s pat : String) : Bool := strContainsAux pat.data s.data

/-- Python `s.replace(" ", "")` (single-character pattern, so a filter). -/
def stripSpaces (s : String) : String := ⟨s.data.filter (fun c => !(c == ' '))⟩

/-- Python `s.replace(" ", "_")` (single-character pattern, so a map). -/
def spacesToUnderscores (s : String) : String :=
  ⟨s.data.map (fun c => if c == ' ' then '_' else c)⟩

/-- Python `s.replace("_", " ")` (single-character pattern, so a map). -/
def underscoresToSpaces (s : String) : String :=
  ⟨s.data.map (fun c => if c == '_' then ' ' else c)⟩

/-- Python `s.lower()` (all source strings are ASCII). -/
def strToLower (s : String) : String := ⟨s.data.map Char.toLower⟩

/-- Enum `ClutterLevel` of `schemas.py`. -/
inductive ClutterLevel where
  | low | medium | high
deriving DecidableEq, Repr

/-- Enum `SpaceUtilization` of `schemas.py`. -/
inductive SpaceUtilization where
  | underutilized | well_utilized | overcrowded
deriving DecidableEq, Repr

/-- Record `ClutterAnalysis` of `schemas.py`. -/
structure ClutterAnalysis where
  has_clutter : Bool
  has_empty_spaces : Bool
  clutter_level : ClutterLevel
  space_utilization : SpaceUtilization
deriving DecidableEq, Repr

/-- Enum `RoomType` of `schemas.py` (11 values). -/
inductive RoomType where
  | living_room | bedroom | kitchen | bathroom | dining_room
  | balcony | garden | pool_area | bungalow | office | basement
deriving DecidableEq, Repr

/-- String value of a `RoomType` member, as in the Python `str` enum. -/
def RoomType.value : RoomType → String
  | .living_room => "living_room"
  | .bedroom => "bedroom"
  | .kitchen => "kitchen"
  | .bathroom => "bathroom"
  | .dining_room => "dining_room"
  | .balcony => "balcony"
  | .garden => "garden"
  | .pool_area => "pool_area"
  | .bungalow => "bungalow"
  | .office => "office"
  | .basement => "basement"

/-- Enum `StyleType` of `schemas.py` (10 values). -/
inductive StyleType where
  | modern | contemporary | traditional | rustic | industrial
  | minimalist | vintage | scandinavian | mediterranean | colonial
deriving DecidableEq, Repr

/-- String value of a `StyleType` member, as in the Python `str` enum. -/
def StyleType.value : StyleType → String
  | .modern => "modern"
  | .contemporary => "contemporary"
  | .traditional => "traditional"
  | .rustic => "rustic"
  | .industrial => "industrial"
  | .minimalist => "minimalist"
  | .vintage => "vintage"
  | .scandinavian => "scandinavian"
  | .mediterranean => "mediterranean"
  | .colonial => "colonial"

/-- One entry of the enhancement database / `EnhancementSuggestion` of
`schemas.py` (same four fields). -/
structure SuggestionRecord where
  suggestion : String
  priority : String
  category : String
  estimated_impact : String
deriving DecidableEq, Repr

/-- Record `ImageAnalysisResult` of `schemas.py`. -/
structure ImageAnalysisResult where
  caption : String
  room_type : RoomType
  style : StyleType
  confidence_scores : List (String × ℚ)
  editable_areas : List String
  clutter_analysis : ClutterAnalysis
deriving DecidableEq, Repr

/-- The generic default record of `EnhancementDatabase.get_suggestions`. -/
def default_suggestion : SuggestionRecord :=
  { suggestion := "Add modern furniture pieces, remove clutter and personal items"
    priority := "high", category := "general", estimated_impact := "high" }

/-- Entry `living_room.modern` of `EnhancementDatabase._load_suggestions`. -/
def living_room_modern : List SuggestionRecord :=
  [ { suggestion := "Add a sleek sectional sofa in neutral tones, remove outdated furniture"
      priority := "high", category := "furniture", estimated_impact := "high" }
  , { suggestion := "Install contemporary lighting fixtures, enhance natural light"
      priority := "medium", category := "lighting", estimated_impact := "medium" }
  , { suggestion := "Add modern coffee table with clean lines, declutter surfaces"
      priority := "medium", category := "furniture", estimated_impact := "medium" }
  , { suggestion := "Enhance walls with modern art pieces, remove personal items"
      priority := "low", category := "decor", estimated_impact := "low" } ]

/-- Entry `living_room.traditional` of `EnhancementDatabase._load_suggestions`. -/
def living_room_traditional : List SuggestionRecord :=
  [ { suggestion := "Add classic leather armchair in rich brown, remove clutter"
      priority := "high", category := "furniture", estimated_impact := "high" }
  , { suggestion := "Enhance fireplace with elegant mantelpiece decor, organize books"
      priority := "medium", category := "decor", estimated_impact := "medium" }
  , { suggestion := "Add traditional area rug with warm patterns, remove worn items"
      priority := "medium", category := "decor", estimated_impact := "medium" }
  , { suggestion := "Install classic table lamps, improve ambient lighting"
      priority := "low", category := "lighting", estimated_impact := "low" } ]

/-- Entry `living_room.rustic` of `EnhancementDatabase._load_suggestions`. -/
def living_room_rustic : List SuggestionRecord :=
  [ { suggestion := "Add reclaimed wood coffee table, remove modern elements"
      priority := "high", category := "furniture", estimated_impact := "high" }
  , { suggestion := "Enhance with cozy throw blankets and pillows, declutter"
      priority := "medium", category := "decor", estimated_impact := "medium" }
  , { suggestion := "Add vintage wooden accents, remove plastic items"
      priority := "medium", category := "decor", estimated_impact := "medium" }
  , { suggestion := "Install wrought iron lighting fixtures, create warm ambiance"
      priority := "low", category := "lighting", estimated_impact := "low" } ]

/-- Entry `kitchen.modern` of `EnhancementDatabase._load_suggestions`. -/
def kitchen_modern : List SuggestionRecord :=
  [ { suggestion := "Enhance countertops with quartz surfaces, remove clutter including dishes"
      priority := "high", category := "surfaces", estimated_impact := "high" }
  , { suggestion := "Add stainless steel appliances, remove outdated equipment"
      priority := "high", category := "appliances", estimated_impact := "high" }
  , { suggestion := "Install pendant lighting over island, improve task lighting"
      priority := "medium", category := "lighting", estimated_impact := "medium" }
  , { suggestion := "Add modern bar stools, remove mismatched seating"
      priority := "low", category := "furniture", estimated_impact := "low" } ]

/-- Entry `kitchen.traditional` of `EnhancementDatabase._load_suggestions`. -/
def kitchen_traditional : List SuggestionRecord :=
  [ { suggestion := "Enhance with granite countertops, organize cooking utensils"
      priority := "high", category := "surfaces", estimated_impact := "high" }
  , { suggestion := "Add wooden cutting boards and copper accents, remove clutter"
      priority := "medium", category := "decor", estimated_impact := "medium" }
  , { suggestion := "Install classic cabinet hardware, update drawer pulls"
      priority := "medium", category := "fixtures", estimated_impact := "medium" }
  , { suggestion := "Add traditional ceramic backsplash, remove worn tiles"
      priority := "low", category := "surfaces", estimated_impact := "low" } ]

/-- Entry `bedroom.modern` of `EnhancementDatabase._load_suggestions`. -/
def bedroom_modern : List SuggestionRecord :=
  [ { suggestion := "Add platform bed with clean lines, remove personal items"
      priority := "high", category := "furniture", estimated_impact := "high" }
  , { suggestion := "Enhance with minimalist nightstands, declutter surfaces"
      priority := "medium", category := "furniture", estimated_impact := "medium" }
  , { suggestion := "Install contemporary lighting, improve ambient mood"
      priority := "medium", category := "lighting", estimated_impact := "medium" }
  , { suggestion := "Add modern dresser with sleek handles, organize clothing"
      priority := "low", category := "furniture", estimated_impact := "low" } ]

/-- Entry `bedroom.traditional` of `EnhancementDatabase._load_suggestions`. -/
def bedroom_traditional : List SuggestionRecord :=
  [ { suggestion := "Add classic wooden bed frame, remove modern elements"
      priority := "high", category := "furniture", estimated_impact := "high" }
  , { suggestion := "Enhance with traditional bedding and pillows, organize linens"
      priority := "medium", category := "decor", estimated_impact := "medium" }
  , { suggestion := "Install elegant table lamps, create warm lighting"
      priority := "medium", category := "lighting", estimated_impact := "medium" }
  , { suggestion := "Add antique dresser with ornate details, declutter"
      priority := "low", category := "furniture", estimated_impact := "low" } ]

/-- Entry `bathroom.modern` of `EnhancementDatabase._load_suggestions`. -/
def bathroom_modern : List SuggestionRecord :=
  [ { suggestion := "Enhance vanity with modern vessel sink, remove personal toiletries"
      priority := "high", category := "fixtures", estimated_impact := "high" }
  , { suggestion := "Add frameless glass shower doors, update outdated fixtures"
      priority := "medium", category := "fixtures", estimated_impact := "medium" }
  , { suggestion := "Install contemporary faucets and hardware, remove rust stains"
      priority := "medium", category := "fixtures", estimated_impact := "medium" }
  , { suggestion := "Add modern mirror with LED lighting, improve visibility"
      priority := "low", category := "lighting", estimated_impact := "low" } ]

/-- Entry `bathroom.traditional` of `EnhancementDatabase._load_suggestions`. -/
def bathroom_traditional : List SuggestionRecord :=
  [ { suggestion := "Enhance with classic pedestal sink, organize bathroom items"
      priority := "high", category := "fixtures", estimated_impact := "high" }
  , { suggestion := "Add traditional shower curtain, remove worn fixtures"
      priority := "medium", category := "fixtures", estimated_impact := "medium" }
  , { suggestion := "Install vintage-style faucets, update hardware"
      priority := "medium", category := "fixtures", estimated_impact := "medium" }
  , { suggestion := "Add ornate mirror frame, improve lighting"
      priority := "low", category := "lighting", estimated_impact := "low" } ]

/-- The nested dictionary returned by `EnhancementDatabase._load_suggestions`,
as an association list preserving the Python insertion order. -/
def suggestionsDB : List (String × List (String × List SuggestionRecord)) :=
  [ ("living_room",
      [ ("modern", living_room_modern)
      , ("traditional", living_room_traditional)
      , ("rustic", living_room_rustic) ])
  , ("kitchen",
      [ ("modern", kitchen_modern)
      , ("traditional", kitchen_traditional) ])
  , ("bedroom",
      [ ("modern", bedroom_modern)
      , ("traditional", bedroom_traditional) ])
  , ("bathroom",
      [ ("modern", bathroom_modern)
      , ("traditional", bathroom_traditional) ]) ]

/-- Method `EnhancementDatabase.get_suggestions`. -/
def get_suggestions (room_type style : String) : List SuggestionRecord :=
  let room_key := strToLower (spacesToUnderscores room_type)
  let style_key := strToLower style
  match suggestionsDB.lookup room_key with
  | some styles =>
    match styles.lookup style_key with
    | some recs => recs
    | none => (styles.lookup "modern").getD []
  | none => [default_suggestion]

/-- Field `self.room_types` of `RealEstateAIService` (11 entries). -/
def room_types : List String :=
  [ "living room", "bedroom", "kitchen", "bathroom", "dining room"
  , "balcony", "garden", "pool area", "bungalow", "office", "basement" ]

/-- Field `self.style_types` of `RealEstateAIService` (10 entries). -/
def style_types : List String :=
  [ "modern", "contemporary", "traditional", "rustic", "industrial"
  , "minimalist", "vintage", "scandinavian", "mediterranean", "colonial" ]

/-- Local dictionary `style_keywords` of `RealEstateAIService._identify_style`
(insertion order preserved; it covers four styles only). -/
def style_keywords : List (String × List String) :=
  [ ("modern", ["modern", "contemporary", "sleek", "minimalist"])
  , ("traditional", ["traditional", "classic", "vintage", "antique"])
  , ("rustic", ["rustic", "wooden", "natural", "country"])
  , ("industrial", ["industrial", "metal", "concrete", "exposed"]) ]

/-- List `clutter_keywords` of `RealEstateAIService._analyze_clutter_and_spaces`. -/
def clutter_keywords : List String :=
  [ "messy", "cluttered", "disorganized", "scattered", "pile", "stack"
  , "dishes", "papers", "clothes", "items", "stuff", "things" ]

/-- List `empty_keywords` of `RealEstateAIService._analyze_clutter_and_spaces`. -/
def empty_keywords : List String :=
  [ "empty", "bare", "vacant", "spacious", "open", "minimal", "clean" ]

/-- Dictionary `editable_elements` of `RealEstateAIService._detect_editable_areas`
(six categories, insertion order preserved). -/
def editable_elements : List (String × List String) :=
  [ ("furniture", ["chair", "sofa", "table", "bed", "dresser", "cabinet"])
  , ("lighting", ["lamp", "light", "chandelier", "fixture"])
  , ("decor", ["pillow", "cushion", "artwork", "plant", "vase"])
  , ("surfaces", ["counter", "countertop", "floor", "wall"])
  , ("appliances", ["refrigerator", "stove", "microwave", "dishwasher"])
  , ("fixtures", ["sink", "faucet", "shower", "bathtub"]) ]

/-- Index of the first maximal element of a probability vector:
`torch.argmax` on the softmax output (first index on ties). -/
def idxOfMax : List ℚ → Nat
  | [] => 0
  | [_] => 0
  | x :: y :: ys =>
    let j := idxOfMax (y :: ys)
    if x < (y :: ys).getD j 0 then j + 1 else 0

/-- Method `RealEstateAIService._generate_caption`: the BLIP call is modelled
by its result, `Except.error` standing for a raised exception, which the
method absorbs by returning the fallback caption. -/
def generate_caption (blip : Except String String) : String :=
  match blip with
  | .ok caption => caption
  | .error _ => "A room interior"

/-- Method `RealEstateAIService._identify_room_type`: the CLIP call is
modelled by its softmax probability vector (or an exception).  On success the
caption keyword scan (spaces stripped on both sides) takes precedence with
confidence 0.9; otherwise the arg-max room type is used when its probability
exceeds 0.3, else the default "living room". -/
def identify_room_type (clip : Except String (List ℚ)) (caption : String) : String × ℚ :=
  match clip with
  | .error _ => ("living room", 1/2)
  | .ok probs =>
    let room_idx := idxOfMax probs
    let confidence := probs.getD room_idx 0
    let caption_lower := strToLower caption
    match room_types.find? (fun rt => strContains (stripSpaces caption_lower) (stripSpaces rt)) with
    | some rt => (rt, 9/10)
    | none =>
      (if confidence > 3/10 then room_types.getD room_idx "living room" else "living room",
       confidence)

/-- Method `RealEstateAIService._identify_style`: same shape as
`identify_room_type`, with the synonym dictionary `style_keywords`, the
threshold 0.25 and the default "modern". -/
def identify_style (clip : Except String (List ℚ)) (caption : String) : String × ℚ :=
  match clip with
  | .error _ => ("modern", 1/2)
  | .ok probs =>
    let style_idx := idxOfMax probs
    let confidence := probs.getD style_idx 0
    let caption_lower := strToLower caption
    match style_keywords.find? (fun p => p.2.any (fun k => strContains caption_lower k)) with
    | some p => (p.1, 9/10)
    | none =>
      (if confidence > 1/4 then style_types.getD style_idx "modern" else "modern",
       confidence)

/-- Method `RealEstateAIService._detect_editable_areas` (the nested
append loop over `editable_elements`). -/
def detect_editable_areas (caption : String) : List String :=
  let caption_lower := strToLower caption
  editable_elements.foldl
    (fun acc p =>
      acc ++ (p.2.filter (fun e => strContains caption_lower e)).map (fun e => p.1 ++ ": " ++ e))
    []

/-- Method `RealEstateAIService._analyze_clutter_and_spaces`. -/
def analyze_clutter_and_spaces (caption : String) : ClutterAnalysis :=
  let caption_lower := strToLower caption
  let has_clutter := clutter_keywords.any (fun k => strContains caption_lower k)
  let has_empty_spaces := empty_keywords.any (fun k => strContains caption_lower k)
  let clutter_count := (clutter_keywords.filter (fun k => strContains caption_lower k)).length
  let clutter_level :=
    if clutter_count ≥ 3 then ClutterLevel.high
    else if clutter_count ≥ 1 then ClutterLevel.medium
    else ClutterLevel.low
  let space_utilization :=
    if has_empty_spaces then SpaceUtilization.underutilized
    else if has_clutter then SpaceUtilization.overcrowded
    else SpaceUtilization.well_utilized
  { has_clutter := has_clutter, has_empty_spaces := has_empty_spaces
    clutter_level := clutter_level, space_utilization := space_utilization }

/-- Method `RealEstateAIService._customize_suggestion` as a record-to-record
function (the Python method first copies `suggestion_data`, then mutates the
copy; the copy contents are this function's result). -/
def customize_suggestion (suggestion_data : SuggestionRecord) (analysis : ImageAnalysisResult) :
    SuggestionRecord :=
  let s1 :=
    if analysis.clutter_analysis.has_clutter
        && strContains (strToLower suggestion_data.suggestion) "remove" then
      if suggestion_data.priority == "low" then { suggestion_data with priority := "medium" }
      else if suggestion_data.priority == "medium" then { suggestion_data with priority := "high" }
      else suggestion_data
    else suggestion_data
  if analysis.clutter_analysis.clutter_level == ClutterLevel.high
      && !(strContains (strToLower s1.suggestion) "remove clutter") then
    { s1 with suggestion := s1.suggestion ++ ", prioritize decluttering" }
  else s1

/-- Method `RealEstateAIService.get_enhancement_suggestions` (value level):
the knowledge-base rows for the analysed room and style, each customized. -/
def get_enhancement_suggestions (analysis : ImageAnalysisResult) : List SuggestionRecord :=
  let room_type := underscoresToSpaces analysis.room_type.value
  let style := analysis.style.value
  let suggestions_data := get_suggestions room_type style
  suggestions_data.map (fun sd => customize_suggestion sd analysis)

/-- Method `RealEstateAIService.get_primary_suggestion` (filter by priority
"high", then "medium", then first element, then the fixed fallback string). -/
def get_primary_suggestion (analysis : ImageAnalysisResult) : String :=
  let suggestions := get_enhancement_suggestions analysis
  match suggestions.filter (fun s => s.priority == "high") with
  | s :: _ => s.suggestion
  | [] =>
    match suggestions.filter (fun s => s.priority == "medium") with
    | s :: _ => s.suggestion
    | [] =>
      match suggestions with
      | s :: _ => s.suggestion
      | [] => "Add modern furniture pieces, remove clutter and personal items"

/-- Enumeration of the (category, keyword) pairs of `editable_elements` in
category-then-keyword order. -/
def categoryKeywordPairs : List (String × String) :=
  editable_elements.flatMap (fun p => p.2.map (fun e => (p.1, e)))

/-- Object store for the mutation model of `get_enhancement_suggestions`:
each cell is one Python `dict` object holding a suggestion record; the
knowledge-base rows occupy the initial cells. -/
structure RecordStore where
  cells : List SuggestionRecord
deriving DecidableEq, Repr

/-- Dereference a cell (indices are always in range where used). -/
def RecordStore.get (s : RecordStore) (r : Nat) : SuggestionRecord :=
  s.cells.getD r default_suggestion

/-- Overwrite a cell in place. -/
def RecordStore.set (s : RecordStore) (r : Nat) (v : SuggestionRecord) : RecordStore :=
  ⟨s.cells.set r v⟩

/-- Method `RealEstateAIService._customize_suggestion` at the object level:
`suggestion_data.copy()` allocates a fresh cell with the same contents, and
the two mutation sites write to that fresh cell only. -/
def customize_step (s : RecordStore) (r : Nat) (analysis : ImageAnalysisResult) :
    RecordStore × Nat :=
  let fresh := s.cells.length
  let s1 : RecordStore := ⟨s.cells ++ [s.get r]⟩
  let s2 :=
    if analysis.clutter_analysis.has_clutter
        && strContains (strToLower (s1.get fresh).suggestion) "remove" then
      if (s1.get fresh).priority == "low" then
        s1.set fresh { s1.get fresh with priority := "medium" }
      else if (s1.get fresh).priority == "medium" then
        s1.set fresh { s1.get fresh with priority := "high" }
      else s1
    else s1
  let s3 :=
    if analysis.clutter_analysis.clutter_level == ClutterLevel.high
        && !(strContains (strToLower (s2.get fresh).suggestion) "remove clutter") then
      s2.set fresh { s2.get fresh with suggestion := (s2.get fresh).suggestion ++ ", prioritize decluttering" }
    else s2
  (s3, fresh)

/-- Loop body of `RealEstateAIService.get_enhancement_suggestions` at the
object level: customize each knowledge-base row reference in order,
collecting the references to the customized copies. -/
def enhance_all (s : RecordStore) (refs : List Nat) (analysis : ImageAnalysisResult) :
    RecordStore × List Nat :=
  match refs with
  | [] => (s, [])
  | r :: rs =>
    let step := customize_step s r analysis
    let rest := enhance_all step.1 rs analysis
    (rest.1, step.2 :: rest.2)

/-- Sample analysis result of a heavily cluttered caption, used to evaluate
the customization pipeline at a concrete input (four distinct clutter
keywords: messy, cluttered, pile, clothes). -/
def clutteredAnalysis : ImageAnalysisResult :=
  { caption := "a messy cluttered pile of clothes in a living room"
    room_type := RoomType.living_room
    style := StyleType.modern
    confidence_scores := []
    editable_areas := detect_editable_areas "a messy cluttered pile of clothes in a living room"
    clutter_analysis := analyze_clutter_and_spaces "a messy cluttered pile of clothes in a living room" }

/-! Helper lemmas -/

/-- The probability at the arg-max index bounds every entry of the vector. -/
theorem le_getD_idxOfMax : ∀ (l : List ℚ), ∀ q ∈ l, q ≤ l.getD (idxOfMax l) 0 := by
  intro l
  induction l with
  | nil => intro q hq; cases hq
  | cons x xs ih =>
    cases xs with
    | nil =>
      intro q hq
      rcases List.mem_cons.mp hq with rfl | h
      · simp [idxOfMax]
      · cases h
    | cons y ys =>
      intro q hq
      show q ≤ (x :: y :: ys).getD
        (if x < (y :: ys).getD (idxOfMax (y :: ys)) 0 then idxOfMax (y :: ys) + 1 else 0) 0
      by_cases h : x < (y :: ys).getD (idxOfMax (y :: ys)) 0
      · rw [if_pos h, List.getD_cons_succ]
        rcases List.mem_cons.mp hq with rfl | hq'
        · exact le_of_lt h
        · exact ih q hq'
      · rw [if_neg h, List.getD_cons_zero]
        rcases List.mem_cons.mp hq with rfl | hq'
        · exact le_refl q
        · exact le_trans (ih q hq') (not_lt.mp h)

/-- Head of a filtered list is the first element satisfying the predicate. -/
theorem filter_head?_eq_find? {α : Type} (p : α → Bool) :
    ∀ l : List α, (l.filter p).head? = l.find? p := by
  intro l
  induction l with
  | nil => rfl
  | cons x xs ih =>
    by_cases h : p x <;> simp [List.filter_cons, List.find?_cons, h, ih]

/-! Claim theorems -/

/-- Claim C3, counterexample: the claim says `get_suggestions "office" "rustic"`
returns the office room's modern list and not the generic default; in fact the
knowledge base has no "office" room at all, and the call returns exactly the
single generic default record with category "general". -/
theorem office_lookup_counterexample :
    suggestionsDB.lookup "office" = none ∧
    get_suggestions "office" "rustic" = [default_suggestion] ∧
    default_suggestion.category = "general" := by
  refine ⟨rfl, rfl, rfl⟩

/-- Claim C3 (amended): `get_suggestions "office" "rustic"` returns the single
generic default record (category "general", priority "high"), because "office"
is not a key of the knowledge base; the modern-style fallback applies only to
the four rooms present (living_room, kitchen, bedroom, bathroom). -/
theorem office_lookup_generic_default :
    get_suggestions "office" "rustic" =
      [ { suggestion := "Add modern furniture pieces, remove clutter and personal items"
          priority := "high", category := "general", estimated_impact := "high" } ] ∧
    (get_suggestions "office" "rustic").length = 1 ∧
    (suggestionsDB.map Prod.fst) = ["living_room", "kitchen", "bedroom", "bathroom"] := by
  refine ⟨rfl, rfl, rfl⟩

/-- Claim C9: a failed caption-model call yields the fallback caption
"A room interior" instead of an exception, and a failed classification call
yields the default label with neutral confidence 0.5
("living room" for room type, "modern" for style). -/
theorem model_failure_fallbacks (eBlip eRoom eStyle : String) (caption : String) :
    generate_caption (Except.error eBlip) = "A room interior" ∧
    identify_room_type (Except.error eRoom) caption = ("living room", 1/2) ∧
    identify_style (Except.error eStyle) caption = ("modern", 1/2) :=
  ⟨rfl, rfl, rfl⟩

/-- Claim C2: the fallback chain of `get_suggestions` — when the room key
(spaces replaced by underscores, lowercased) is present but the style key
(lowercased) is absent under it, the room's "modern" list is returned; when
the room key is absent, the result is exactly the one generic default record
with category "general" and priority "high"; in particular
`get_suggestions "garage" "modern"` is that single record. -/
theorem kb_fallback_chain (room style : String)
    (styles : List (String × List SuggestionRecord)) (ms : List SuggestionRecord)
    (hroom : suggestionsDB.lookup (strToLower (spacesToUnderscores room)) = some styles)
    (hstyle : styles.lookup (strToLower style) = none)
    (hms : styles.lookup "modern" = some ms)
    (room2 style2 : String)
    (habs : suggestionsDB.lookup (strToLower (spacesToUnderscores room2)) = none) :
    get_suggestions room style = ms ∧
    get_suggestions room2 style2 = [default_suggestion] ∧
    get_suggestions "garage" "modern" = [default_suggestion] ∧
    default_suggestion.category = "general" ∧
    default_suggestion.priority = "high" ∧
    [default_suggestion].length = 1 := by
  refine ⟨?_, ?_, rfl, rfl, rfl, rfl⟩
  · show (match suggestionsDB.lookup (strToLower (spacesToUnderscores room)) with
      | some styles =>
        match styles.lookup (strToLower style) with
        | some recs => recs
        | none => (styles.lookup "modern").getD []
      | none => [default_suggestion]) = ms
    rw [hroom]
    show (match styles.lookup (strToLower style) with
      | some recs => recs
      | none => (styles.lookup "modern").getD []) = ms
    rw [hstyle, hms]
    rfl
  · show (match suggestionsDB.lookup (strToLower (spacesToUnderscores room2)) with
      | some styles =>
        match styles.lookup (strToLower style2) with
        | some recs => recs
        | none => (styles.lookup "modern").getD []
      | none => [default_suggestion]) = [default_suggestion]
    rw [habs]

/-- Witness for C2: the living room exists in the knowledge base, the style
"industrial" does not exist under it, so the living room's modern list is
returned; "garage" is absent altogether. -/
theorem kb_fallback_chain_witness :
    get_suggestions "living room" "industrial" = living_room_modern :=
  (kb_fallback_chain "living room" "industrial"
    [ ("modern", living_room_modern)
    , ("traditional", living_room_traditional)
    , ("rustic", living_room_rustic) ]
    living_room_modern rfl rfl rfl "garage" "modern" rfl).1

/-- Claim C1: a room-type name occurring in the caption (both sides lowercased
and space-stripped) always wins with fixed confidence 0.9, for every
classifier probability vector; with no keyword match the result carries the
arg-max probability (which bounds every entry), naming the arg-max room type
when that probability exceeds 0.3 and "living room" otherwise. -/
theorem room_type_priority_rule (probs : List ℚ) (caption : String) :
    ((∃ rt ∈ room_types, strContains (stripSpaces (strToLower caption)) (stripSpaces rt) = true) →
      (identify_room_type (Except.ok probs) caption).2 = 9/10 ∧
      ∃ rt ∈ room_types, strContains (stripSpaces (strToLower caption)) (stripSpaces rt) = true ∧
        (identify_room_type (Except.ok probs) caption).1 = rt) ∧
    ((∀ rt ∈ room_types, strContains (stripSpaces (strToLower caption)) (stripSpaces rt) = false) →
      (identify_room_type (Except.ok probs) caption).2 = probs.getD (idxOfMax probs) 0 ∧
      (∀ q ∈ probs, q ≤ (identify_room_type (Except.ok probs) caption).2) ∧
      (probs.getD (idxOfMax probs) 0 > 3/10 →
        (identify_room_type (Except.ok probs) caption).1 =
          room_types.getD (idxOfMax probs) "living room") ∧
      (¬ probs.getD (idxOfMax probs) 0 > 3/10 →
        (identify_room_type (Except.ok probs) caption).1 = "living room")) := by
  have hdef : identify_room_type (Except.ok probs) caption =
      match room_types.find?
          (fun rt => strContains (stripSpaces (strToLower caption)) (stripSpaces rt)) with
      | some rt => (rt, 9/10)
      | none =>
        (if probs.getD (idxOfMax probs) 0 > 3/10
          then room_types.getD (idxOfMax probs) "living room" else "living room",
         probs.getD (idxOfMax probs) 0) := rfl
  constructor
  · rintro ⟨rt, hmem, hmatch⟩
    cases hfind : room_types.find?
        (fun rt => strContains (stripSpaces (strToLower caption)) (stripSpaces rt)) with
    | none =>
      exact absurd hmatch (by simpa using List.find?_eq_none.mp hfind rt hmem)
    | some rt' =>
      rw [hdef, hfind]
      have hp := List.find?_some hfind
      have hm := List.mem_of_find?_eq_some hfind
      exact ⟨rfl, rt', hm, hp, rfl⟩
  · intro hall
    have hfind : room_types.find?
        (fun rt => strContains (stripSpaces (strToLower caption)) (stripSpaces rt)) = none :=
      List.find?_eq_none.mpr (fun x hx => by simp [hall x hx])
    rw [hdef, hfind]
    refine ⟨rfl, ?_, ?_, ?_⟩
    · intro q hq
      exact le_getD_idxOfMax probs q hq
    · intro h
      show (if probs.getD (idxOfMax probs) 0 > 3/10
        then room_types.getD (idxOfMax probs) "living room" else "living room") =
          room_types.getD (idxOfMax probs) "living room"
      exact if_pos h
    · intro h
      show (if probs.getD (idxOfMax probs) 0 > 3/10
        then room_types.getD (idxOfMax probs) "living room" else "living room") = "living room"
      exact if_neg h

/-- Witness for C1: the caption "a modern living room with a sofa" contains
the room-type name "living room", so the keyword branch fires with
confidence 0.9 whatever the (here uniform) classifier distribution. -/
theorem room_type_priority_rule_witness :
    (identify_room_type (Except.ok (List.replicate 11 (1/11)))
      "a modern living room with a sofa").2 = 9/10 :=
  ((room_type_priority_rule (List.replicate 11 (1/11)) "a modern living room with a sofa").1
    ⟨"living room", by decide, by decide⟩).1

/-- The arg-max of a constant vector is its first index. -/
theorem idxOfMax_replicate : ∀ (n : Nat) (x : ℚ), idxOfMax (List.replicate n x) = 0 := by
  intro n
  induction n with
  | zero => intro x; rfl
  | succ m ih =>
    intro x
    cases m with
    | zero => rfl
    | succ m' =>
      show idxOfMax (x :: List.replicate (m' + 1) x) = 0
      have hrep : List.replicate (m' + 1) x = x :: List.replicate m' x := rfl
      show (if x < (List.replicate (m' + 1) x).getD (idxOfMax (List.replicate (m' + 1) x)) 0
        then idxOfMax (List.replicate (m' + 1) x) + 1 else 0) = 0
      rw [ih x, hrep, List.getD_cons_zero, if_neg (lt_irrefl x)]

/-- Claim C5, counterexample: the claim says the synonym table covers each of
the 10 styles; but the caption "a scandinavian style interior", naming the
style "scandinavian" explicitly, matches no synonym entry, and with a uniform
(low-confidence) classifier distribution the result is the default
("modern", 1/10) rather than ("scandinavian", 9/10). -/
theorem style_synonym_counterexample :
    identify_style (Except.ok (List.replicate 10 (1/10))) "a scandinavian style interior" =
      ("modern", 1/10) ∧
    (("modern", (1/10 : ℚ)) : String × ℚ) ≠ ("scandinavian", 9/10) ∧
    style_keywords.map Prod.fst = ["modern", "traditional", "rustic", "industrial"] := by
  refine ⟨?_, ?_, rfl⟩
  · have hfind : style_keywords.find?
        (fun p => p.2.any
          (fun k => strContains (strToLower "a scandinavian style interior") k)) = none := by
      decide
    have hdef : identify_style (Except.ok (List.replicate 10 (1/10)))
        "a scandinavian style interior" =
        match style_keywords.find?
            (fun p => p.2.any
              (fun k => strContains (strToLower "a scandinavian style interior") k)) with
        | some p => (p.1, 9/10)
        | none =>
          (if (List.replicate 10 (1/10 : ℚ)).getD (idxOfMax (List.replicate 10 (1/10))) 0 > 1/4
            then style_types.getD (idxOfMax (List.replicate 10 (1/10))) "modern" else "modern",
           (List.replicate 10 (1/10 : ℚ)).getD (idxOfMax (List.replicate 10 (1/10))) 0) := rfl
    rw [hdef, hfind, idxOfMax_replicate]
    have hgetD : (List.replicate 10 (1/10 : ℚ)).getD 0 0 = 1/10 := rfl
    rw [hgetD, if_neg (by norm_num : ¬ (1/10 : ℚ) > 1/4)]
  · intro h
    have := congrArg Prod.fst h
    simp at this

/-- Claim C5 (amended): keyword matching uses the curated synonym table
`style_keywords`, which covers only 4 of the 10 styles (modern, traditional,
rustic, industrial); any of modern/contemporary/sleek/minimalist in the
lowercased caption yields ("modern", 0.9); any synonym match yields the
matching style with confidence 0.9; with no synonym match the classifier's
arg-max style is returned when its probability exceeds 0.25, "modern"
otherwise. -/
theorem style_identification_spec (probs : List ℚ) (caption : String) :
    ((∃ k ∈ ["modern", "contemporary", "sleek", "minimalist"],
        strContains (strToLower caption) k = true) →
      identify_style (Except.ok probs) caption = ("modern", 9/10)) ∧
    ((∃ p ∈ style_keywords, ∃ k ∈ p.2, strContains (strToLower caption) k = true) →
      (identify_style (Except.ok probs) caption).2 = 9/10 ∧
      ∃ p ∈ style_keywords, (∃ k ∈ p.2, strContains (strToLower caption) k = true) ∧
        (identify_style (Except.ok probs) caption).1 = p.1) ∧
    (style_keywords.map Prod.fst = ["modern", "traditional", "rustic", "industrial"]) ∧
    ((∀ p ∈ style_keywords, ∀ k ∈ p.2, strContains (strToLower caption) k = false) →
      (identify_style (Except.ok probs) caption).2 = probs.getD (idxOfMax probs) 0 ∧
      (∀ q ∈ probs, q ≤ (identify_style (Except.ok probs) caption).2) ∧
      (probs.getD (idxOfMax probs) 0 > 1/4 →
        (identify_style (Except.ok probs) caption).1 = style_types.getD (idxOfMax probs) "modern") ∧
      (¬ probs.getD (idxOfMax probs) 0 > 1/4 →
        (identify_style (Except.ok probs) caption).1 = "modern")) := by
  have hdef : identify_style (Except.ok probs) caption =
      match style_keywords.find?
          (fun p => p.2.any (fun k => strContains (strToLower caption) k)) with
      | some p => (p.1, 9/10)
      | none =>
        (if probs.getD (idxOfMax probs) 0 > 1/4
          then style_types.getD (idxOfMax probs) "modern" else "modern",
         probs.getD (idxOfMax probs) 0) := rfl
  refine ⟨?_, ?_, rfl, ?_⟩
  · rintro ⟨k, hk, hmatch⟩
    have hq : (fun p : String × List String =>
        p.2.any (fun k => strContains (strToLower caption) k))
        ("modern", ["modern", "contemporary", "sleek", "minimalist"]) = true :=
      List.any_eq_true.mpr ⟨k, hk, hmatch⟩
    have hsk : style_keywords =
        ("modern", ["modern", "contemporary", "sleek", "minimalist"]) ::
        [ ("traditional", ["traditional", "classic", "vintage", "antique"])
        , ("rustic", ["rustic", "wooden", "natural", "country"])
        , ("industrial", ["industrial", "metal", "concrete", "exposed"]) ] := rfl
    have hfind : style_keywords.find?
        (fun p => p.2.any (fun k => strContains (strToLower caption) k)) =
        some ("modern", ["modern", "contemporary", "sleek", "minimalist"]) := by
      rw [hsk]
      exact List.find?_cons_of_pos _ hq
    rw [hdef, hfind]
  · rintro ⟨p, hp, k, hk, hmatch⟩
    cases hfind : style_keywords.find?
        (fun p => p.2.any (fun k => strContains (strToLower caption) k)) with
    | none =>
      have := List.find?_eq_none.mp hfind p hp
      simp only [List.any_eq_true, not_exists, not_and] at this
      exact absurd hmatch (by simpa using this k hk)
    | some p' =>
      rw [hdef, hfind]
      have hq := List.find?_some hfind
      have hm := List.mem_of_find?_eq_some hfind
      refine ⟨rfl, p', hm, ?_, rfl⟩
      simpa using List.any_eq_true.mp hq
  · intro hall
    have hfind : style_keywords.find?
        (fun p => p.2.any (fun k => strContains (strToLower caption) k)) = none := by
      refine List.find?_eq_none.mpr (fun p hp => ?_)
      simp only [List.any_eq_true, not_exists, not_and]
      intro k hk
      simp [hall p hp k hk]
    rw [hdef, hfind]
    refine ⟨rfl, ?_, ?_, ?_⟩
    · intro q hq
      exact le_getD_idxOfMax probs q hq
    · intro h
      show (if probs.getD (idxOfMax probs) 0 > 1/4
        then style_types.getD (idxOfMax probs) "modern" else "modern") =
          style_types.getD (idxOfMax probs) "modern"
      exact if_pos h
    · intro h
      show (if probs.getD (idxOfMax probs) 0 > 1/4
        then style_types.getD (idxOfMax probs) "modern" else "modern") = "modern"
      exact if_neg h

/-- Witness for C5 (amended): the caption "a sleek kitchen" contains the
modern synonym "sleek", so the synonym branch yields ("modern", 0.9). -/
theorem style_identification_spec_witness :
    identify_style (Except.ok (List.replicate 10 (1/10))) "a sleek kitchen" = ("modern", 9/10) :=
  (style_identification_spec (List.replicate 10 (1/10)) "a sleek kitchen").1
    ⟨"sleek", by decide, by decide⟩

/-- Claim C4: `analyze_clutter_and_spaces` sets `has_clutter` iff some clutter
keyword occurs in the lowercased caption and `has_empty_spaces` iff some
empty-space keyword occurs; the clutter level is high at ≥ 3 distinct keyword
hits, medium at ≥ 1, low otherwise; space utilization prefers underutilized
(empty-space signal), then overcrowded (clutter signal), then well_utilized;
consequently clutter implies level ∈ {medium, high} and the empty-space
signal forces underutilized even in the presence of clutter. -/
theorem clutter_space_analysis_spec (caption : String) :
    ((analyze_clutter_and_spaces caption).has_clutter = true ↔
      ∃ k ∈ clutter_keywords, strContains (strToLower caption) k = true) ∧
    ((analyze_clutter_and_spaces caption).has_empty_spaces = true ↔
      ∃ k ∈ empty_keywords, strContains (strToLower caption) k = true) ∧
    (3 ≤ (clutter_keywords.filter (fun k => strContains (strToLower caption) k)).length →
      (analyze_clutter_and_spaces caption).clutter_level = ClutterLevel.high) ∧
    (1 ≤ (clutter_keywords.filter (fun k => strContains (strToLower caption) k)).length →
      (clutter_keywords.filter (fun k => strContains (strToLower caption) k)).length < 3 →
      (analyze_clutter_and_spaces caption).clutter_level = ClutterLevel.medium) ∧
    ((clutter_keywords.filter (fun k => strContains (strToLower caption) k)).length = 0 →
      (analyze_clutter_and_spaces caption).clutter_level = ClutterLevel.low) ∧
    ((analyze_clutter_and_spaces caption).has_empty_spaces = true →
      (analyze_clutter_and_spaces caption).space_utilization = SpaceUtilization.underutilized) ∧
    ((analyze_clutter_and_spaces caption).has_empty_spaces = false →
      (analyze_clutter_and_spaces caption).has_clutter = true →
      (analyze_clutter_and_spaces caption).space_utilization = SpaceUtilization.overcrowded) ∧
    ((analyze_clutter_and_spaces caption).has_empty_spaces = false →
      (analyze_clutter_and_spaces caption).has_clutter = false →
      (analyze_clutter_and_spaces caption).space_utilization = SpaceUtilization.well_utilized) ∧
    ((analyze_clutter_and_spaces caption).has_clutter = true →
      (analyze_clutter_and_spaces caption).clutter_level = ClutterLevel.medium ∨
      (analyze_clutter_and_spaces caption).clutter_level = ClutterLevel.high) := by
  have hc : (analyze_clutter_and_spaces caption).has_clutter =
      clutter_keywords.any (fun k => strContains (strToLower caption) k) := rfl
  have he : (analyze_clutter_and_spaces caption).has_empty_spaces =
      empty_keywords.any (fun k => strContains (strToLower caption) k) := rfl
  have hl : (analyze_clutter_and_spaces caption).clutter_level =
      (if (clutter_keywords.filter (fun k => strContains (strToLower caption) k)).length ≥ 3
        then ClutterLevel.high
        else if (clutter_keywords.filter (fun k => strContains (strToLower caption) k)).length ≥ 1
          then ClutterLevel.medium
          else ClutterLevel.low) := rfl
  have hs : (analyze_clutter_and_spaces caption).space_utilization =
      (if empty_keywords.any (fun k => strContains (strToLower caption) k)
        then SpaceUtilization.underutilized
        else if clutter_keywords.any (fun k => strContains (strToLower caption) k)
          then SpaceUtilization.overcrowded
          else SpaceUtilization.well_utilized) := rfl
  refine ⟨?_, ?_, ?_, ?_, ?_, ?_, ?_, ?_, ?_⟩
  · rw [hc, List.any_eq_true]
  · rw [he, List.any_eq_true]
  · intro h3
    rw [hl, if_pos h3]
  · intro h1 h3
    rw [hl, if_neg (by omega), if_pos h1]
  · intro h0
    rw [hl, if_neg (by omega), if_neg (by omega)]
  · intro hemp
    rw [he] at hemp
    rw [hs, if_pos hemp]
  · intro hemp hclut
    rw [he] at hemp
    rw [hc] at hclut
    rw [hs, if_neg (by simp [hemp]), if_pos hclut]
  · intro hemp hclut
    rw [he] at hemp
    rw [hc] at hclut
    rw [hs, if_neg (by simp [hemp]), if_neg (by simp [hclut])]
  · intro hclut
    rw [hc, List.any_eq_true] at hclut
    obtain ⟨k, hk, hm⟩ := hclut
    have hmem : k ∈ clutter_keywords.filter (fun k => strContains (strToLower caption) k) :=
      List.mem_filter.mpr ⟨hk, hm⟩
    have hpos : 0 < (clutter_keywords.filter (fun k => strContains (strToLower caption) k)).length :=
      List.length_pos.mpr (List.ne_nil_of_mem hmem)
    rw [hl]
    by_cases h3 : (clutter_keywords.filter (fun k => strContains (strToLower caption) k)).length ≥ 3
    · rw [if_pos h3]
      exact Or.inr rfl
    · rw [if_neg h3, if_pos (by omega)]
      exact Or.inl rfl

/-- Witness for C4: "a messy cluttered pile of clothes" hits four distinct
clutter keywords and no empty-space keyword, so the level is high and the
space is overcrowded. -/
theorem clutter_space_analysis_spec_witness :
    (analyze_clutter_and_spaces "a messy cluttered pile of clothes").clutter_level =
      ClutterLevel.high :=
  (clutter_space_analysis_spec "a messy cluttered pile of clothes").2.2.1 (by decide)

/-- Normal form of `customize_suggestion`: the two mutations act on
independent fields (the priority bump never edits the text, and the text
check of the append step therefore sees the original text). -/
theorem customize_suggestion_eq (rec : SuggestionRecord) (a : ImageAnalysisResult) :
    customize_suggestion rec a =
      { suggestion :=
          if a.clutter_analysis.clutter_level = ClutterLevel.high ∧
              strContains (strToLower rec.suggestion) "remove clutter" = false
            then rec.suggestion ++ ", prioritize decluttering" else rec.suggestion
        priority :=
          if a.clutter_analysis.has_clutter = true ∧
              strContains (strToLower rec.suggestion) "remove" = true
            then (if rec.priority = "low" then "medium"
              else if rec.priority = "medium" then "high" else rec.priority)
            else rec.priority
        category := rec.category
        estimated_impact := rec.estimated_impact } := by
  unfold customize_suggestion
  split_ifs <;> simp_all

/-- Claim C6: `customize_suggestion` bumps the priority exactly one level
(low→medium, medium→high, high unchanged) iff the analysis detects clutter
and the record's text contains "remove" case-insensitively; it appends
", prioritize decluttering" to the text iff the clutter level is high and the
text does not already contain "remove clutter" case-insensitively; the
category and estimated impact fields are never changed and each
transformation is applied at most once. -/
theorem customize_suggestion_spec (rec : SuggestionRecord) (a : ImageAnalysisResult) :
    ((a.clutter_analysis.has_clutter && strContains (strToLower rec.suggestion) "remove") = true →
      (rec.priority = "low" → (customize_suggestion rec a).priority = "medium") ∧
      (rec.priority = "medium" → (customize_suggestion rec a).priority = "high") ∧
      (rec.priority ≠ "low" → rec.priority ≠ "medium" →
        (customize_suggestion rec a).priority = rec.priority)) ∧
    ((a.clutter_analysis.has_clutter && strContains (strToLower rec.suggestion) "remove") = false →
      (customize_suggestion rec a).priority = rec.priority) ∧
    ((a.clutter_analysis.clutter_level = ClutterLevel.high ∧
        strContains (strToLower rec.suggestion) "remove clutter" = false) →
      (customize_suggestion rec a).suggestion = rec.suggestion ++ ", prioritize decluttering") ∧
    (¬ (a.clutter_analysis.clutter_level = ClutterLevel.high ∧
        strContains (strToLower rec.suggestion) "remove clutter" = false) →
      (customize_suggestion rec a).suggestion = rec.suggestion) ∧
    (customize_suggestion rec a).category = rec.category ∧
    (customize_suggestion rec a).estimated_impact = rec.estimated_impact := by
  rw [customize_suggestion_eq]
  refine ⟨?_, ?_, ?_, ?_, rfl, rfl⟩
  · intro h
    rw [Bool.and_eq_true] at h
    refine ⟨?_, ?_, ?_⟩
    · intro hp
      simp [h.1, h.2, hp]
    · intro hp
      simp [h.1, h.2, hp]
    · intro hp1 hp2
      simp [h.1, h.2, hp1, hp2]
  · intro h
    have h' : ¬ (a.clutter_analysis.has_clutter = true ∧
        strContains (strToLower rec.suggestion) "remove" = true) := by
      rintro ⟨ha, hb⟩
      rw [ha, hb] at h
      cases h
    simp [h']
  · intro h
    simp [h]
  · intro h
    simp [h]

/-- Witness for C6: a low-priority record whose text lacks "remove", under a
high-clutter analysis — the priority stays "low" and the decluttering note is
appended to the text. -/
theorem customize_suggestion_spec_witness :
    (customize_suggestion
      { suggestion := "Install classic table lamps, improve ambient lighting"
        priority := "low", category := "lighting", estimated_impact := "low" }
      clutteredAnalysis).suggestion =
      "Install classic table lamps, improve ambient lighting" ++ ", prioritize decluttering" :=
  (customize_suggestion_spec
    { suggestion := "Install classic table lamps, improve ambient lighting"
      priority := "low", category := "lighting", estimated_impact := "low" }
    clutteredAnalysis).2.2.1 (by constructor <;> decide)

/-- Claim C7: `get_primary_suggestion` returns the text of the first
customized candidate (original list order) with priority "high"; failing
that, the first with priority "medium"; failing that, the first candidate;
and for an empty candidate list the fixed fallback string. -/
theorem primary_suggestion_spec (analysis : ImageAnalysisResult) :
    get_primary_suggestion analysis =
      match (get_enhancement_suggestions analysis).find? (fun s => s.priority == "high") with
      | some s => s.suggestion
      | none =>
        match (get_enhancement_suggestions analysis).find? (fun s => s.priority == "medium") with
        | some s => s.suggestion
        | none =>
          match (get_enhancement_suggestions analysis).head? with
          | some s => s.suggestion
          | none => "Add modern furniture pieces, remove clutter and personal items" := by
  have hdef : get_primary_suggestion analysis =
      (match (get_enhancement_suggestions analysis).filter (fun s => s.priority == "high") with
      | s :: _ => s.suggestion
      | [] =>
        match (get_enhancement_suggestions analysis).filter (fun s => s.priority == "medium") with
        | s :: _ => s.suggestion
        | [] =>
          match get_enhancement_suggestions analysis with
          | s :: _ => s.suggestion
          | [] => "Add modern furniture pieces, remove clutter and personal items") := rfl
  rw [hdef, ← filter_head?_eq_find?, ← filter_head?_eq_find?]
  cases h1 : (get_enhancement_suggestions analysis).filter (fun s => s.priority == "high") with
  | cons s rest => simp [h1]
  | nil =>
    cases h2 : (get_enhancement_suggestions analysis).filter (fun s => s.priority == "medium") with
    | cons s rest => simp [h1, h2]
    | nil =>
      cases h3 : get_enhancement_suggestions analysis with
      | cons s rest => simp [h1, h2, h3]
      | nil => simp [h1, h2, h3]

/-- The append-accumulator loop of the detector is a flat map. -/
theorem detect_foldl_eq (cl : String) :
    ∀ (table : List (String × List String)) (acc : List String),
      table.foldl
        (fun acc p =>
          acc ++ (p.2.filter (fun e => strContains cl e)).map (fun e => p.1 ++ ": " ++ e)) acc
      = acc ++ table.flatMap
          (fun p => (p.2.filter (fun e => strContains cl e)).map (fun e => p.1 ++ ": " ++ e)) := by
  intro table
  induction table with
  | nil => intro acc; simp
  | cons p ps ih =>
    intro acc
    simp only [List.foldl_cons, List.flatMap_cons, ih, List.append_assoc]

/-- Filtering each keyword list then encoding is the same as filtering the
category-keyword pair enumeration and encoding the survivors. -/
theorem flatMap_filter_encode (q : String → Bool) :
    ∀ (table : List (String × List String)),
      table.flatMap (fun p => (p.2.filter (fun e => q e)).map (fun e => p.1 ++ ": " ++ e))
      = ((table.flatMap (fun p => p.2.map (fun e => (p.1, e)))).filter
          (fun pr => q pr.2)).map (fun pr => pr.1 ++ ": " ++ pr.2) := by
  intro table
  induction table with
  | nil => rfl
  | cons p ps ih =>
    simp only [List.flatMap_cons, List.filter_append, List.map_append, ih]
    congr 1
    rw [List.filter_map, List.map_map]
    rfl

/-- Claim C8 (amended format "category: keyword"): the detector returns
exactly one entry per (category, keyword) pair whose keyword occurs in the
lowercased caption, in category-then-keyword enumeration order (a subsequence
of the full enumeration), with no duplicates; it is a pure function, so a
second run on the same caption returns the identical list. -/
theorem editable_area_detector_spec (caption : String) :
    detect_editable_areas caption =
      ((categoryKeywordPairs.filter (fun pr => strContains (strToLower caption) pr.2)).map
        (fun pr => pr.1 ++ ": " ++ pr.2)) ∧
    List.Sublist (detect_editable_areas caption)
      (categoryKeywordPairs.map (fun pr => pr.1 ++ ": " ++ pr.2)) ∧
    (detect_editable_areas caption).Nodup ∧
    detect_editable_areas caption = detect_editable_areas caption := by
  have h1 : detect_editable_areas caption =
      ((categoryKeywordPairs.filter (fun pr => strContains (strToLower caption) pr.2)).map
        (fun pr => pr.1 ++ ": " ++ pr.2)) := by
    show editable_elements.foldl
        (fun acc p =>
          acc ++ (p.2.filter (fun e => strContains (strToLower caption) e)).map
            (fun e => p.1 ++ ": " ++ e)) []
      = _
    rw [detect_foldl_eq, List.nil_append,
      flatMap_filter_encode (fun e => strContains (strToLower caption) e) editable_elements]
    rfl
  have hsub : List.Sublist (detect_editable_areas caption)
      (categoryKeywordPairs.map (fun pr => pr.1 ++ ": " ++ pr.2)) := by
    rw [h1]
    exact (List.filter_sublist _).map _
  have hnodup : (categoryKeywordPairs.map (fun pr => pr.1 ++ ": " ++ pr.2)).Nodup := by decide
  exact ⟨h1, hsub, hsub.nodup hnodup, rfl⟩

/-- Claim C8, counterexample: the claim's entry format "category:keyword" does
not match the code, which writes a space after the colon — the caption
"a chair" yields the single entry "furniture: chair", not "furniture:chair". -/
theorem editable_area_format_counterexample :
    detect_editable_areas "a chair" = ["furniture: chair"] ∧
    ¬ "furniture:chair" ∈ detect_editable_areas "a chair" := by
  refine ⟨by decide, by decide⟩

/-- Reading the freshly appended cell returns the appended record. -/
theorem getD_append_len {α : Type} (l : List α) (v d : α) :
    (l ++ [v]).getD l.length d = v := by
  rw [List.getD_append_right _ _ _ _ (le_refl l.length), Nat.sub_self]
  rfl

/-- Overwriting the freshly appended cell replaces only that cell. -/
theorem set_append_len {α : Type} (l : List α) (v v' : α) :
    (l ++ [v]).set l.length v' = l ++ [v'] := by
  induction l with
  | nil => rfl
  | cons x xs ih =>
    show x :: (xs ++ [v]).set xs.length v' = x :: (xs ++ [v'])
    rw [ih]

/-- One customization step allocates the customized copy at the end of the
store and returns its reference; all prior cells are syntactically kept. -/
theorem customize_step_spec (s : RecordStore) (r : Nat) (a : ImageAnalysisResult) :
    (customize_step s r a).1.cells = s.cells ++ [customize_suggestion (s.get r) a] ∧
    (customize_step s r a).2 = s.cells.length := by
  have hget : ∀ (w : SuggestionRecord),
      (RecordStore.mk (s.cells ++ [w])).get s.cells.length = w := by
    intro w
    show (s.cells ++ [w]).getD s.cells.length default_suggestion = w
    exact getD_append_len ..
  have hset : ∀ (w w' : SuggestionRecord),
      (RecordStore.mk (s.cells ++ [w])).set s.cells.length w' = RecordStore.mk (s.cells ++ [w']) := by
    intro w w'
    show RecordStore.mk ((s.cells ++ [w]).set s.cells.length w') = _
    rw [set_append_len]
  unfold customize_step customize_suggestion
  simp only [hget, hset]
  split_ifs <;> simp_all [hget, hset]

/-- The customization loop only appends cells: the original store is a
prefix of the final store. -/
theorem enhance_all_extends :
    ∀ (refs : List Nat) (s : RecordStore) (a : ImageAnalysisResult),
      ∃ extra, (enhance_all s refs a).1.cells = s.cells ++ extra := by
  intro refs
  induction refs with
  | nil =>
    intro s a
    exact ⟨[], by simp [enhance_all]⟩
  | cons r rs ih =>
    intro s a
    obtain ⟨extra, hex⟩ := ih (customize_step s r a).1 a
    refine ⟨[customize_suggestion (s.get r) a] ++ extra, ?_⟩
    show (enhance_all (customize_step s r a).1 rs a).1.cells = _
    rw [hex, (customize_step_spec s r a).1, List.append_assoc]

/-- The references returned by the customization loop point at the pure
customizations of the records the input references pointed at. -/
theorem enhance_all_derefs :
    ∀ (refs : List Nat) (s : RecordStore) (a : ImageAnalysisResult),
      (∀ r ∈ refs, r < s.cells.length) →
      (enhance_all s refs a).2.map ((enhance_all s refs a).1.get) =
        refs.map (fun r => customize_suggestion (s.get r) a) := by
  intro refs
  induction refs with
  | nil => intro s a _; rfl
  | cons r rs ih =>
    intro s a h
    have hstep := customize_step_spec s r a
    have hwf' : ∀ r' ∈ rs, r' < (customize_step s r a).1.cells.length := by
      intro r' hr'
      rw [hstep.1, List.length_append]
      exact Nat.lt_of_lt_of_le (h r' (List.mem_cons_of_mem _ hr')) (Nat.le_add_right _ _)
    have htail := ih (customize_step s r a).1 a hwf'
    obtain ⟨extra, hex⟩ := enhance_all_extends rs (customize_step s r a).1 a
    show ((customize_step s r a).2 :: (enhance_all (customize_step s r a).1 rs a).2).map
        ((enhance_all (customize_step s r a).1 rs a).1.get)
      = customize_suggestion (s.get r) a :: rs.map (fun r => customize_suggestion (s.get r) a)
    rw [List.map_cons]
    congr 1
    · show (enhance_all (customize_step s r a).1 rs a).1.get (customize_step s r a).2 = _
      rw [hstep.2]
      show ((enhance_all (customize_step s r a).1 rs a).1.cells).getD s.cells.length
        default_suggestion = _
      rw [hex, hstep.1, List.append_assoc]
      rw [List.getD_append_right _ _ _ _ (le_refl s.cells.length), Nat.sub_self]
      rfl
    · rw [htail]
      refine List.map_congr_left (fun r' hr' => ?_)
      show customize_suggestion ((customize_step s r a).1.get r') a =
        customize_suggestion (s.get r') a
      congr 1
      show ((customize_step s r a).1.cells).getD r' default_suggestion =
        s.cells.getD r' default_suggestion
      rw [hstep.1, List.getD_append _ _ _ _ (h r' (List.mem_cons_of_mem _ hr'))]

/-- Claim C10: `get_enhancement_suggestions` never mutates the knowledge
base — customization acts on a fresh copy of each record, so every cell the
store held before the call is unchanged after it, the returned suggestions
are the pure customizations of those unchanged records, and a second call on
the resulting store returns an equal suggestion list. -/
theorem enhancement_no_mutation (s : RecordStore) (refs : List Nat)
    (a : ImageAnalysisResult) (hrefs : ∀ r ∈ refs, r < s.cells.length) :
    (enhance_all s refs a).1.cells.take s.cells.length = s.cells ∧
    (enhance_all s refs a).2.map ((enhance_all s refs a).1.get) =
      refs.map (fun r => customize_suggestion (s.get r) a) ∧
    (enhance_all (enhance_all s refs a).1 refs a).2.map
        ((enhance_all (enhance_all s refs a).1 refs a).1.get) =
      (enhance_all s refs a).2.map ((enhance_all s refs a).1.get) := by
  obtain ⟨extra, hex⟩ := enhance_all_extends refs s a
  have htake : (enhance_all s refs a).1.cells.take s.cells.length = s.cells := by
    rw [hex]
    exact List.take_left _ _
  have hget : ∀ r ∈ refs, (enhance_all s refs a).1.get r = s.get r := by
    intro r hr
    show ((enhance_all s refs a).1.cells).getD r default_suggestion = _
    rw [hex, List.getD_append _ _ _ _ (hrefs r hr)]
    rfl
  have hwf2 : ∀ r ∈ refs, r < (enhance_all s refs a).1.cells.length := by
    intro r hr
    rw [hex, List.length_append]
    exact Nat.lt_of_lt_of_le (hrefs r hr) (Nat.le_add_right _ _)
  refine ⟨htake, enhance_all_derefs refs s a hrefs, ?_⟩
  rw [enhance_all_derefs refs s a hrefs,
    enhance_all_derefs refs (enhance_all s refs a).1 a hwf2]
  exact List.map_congr_left (fun r hr => by rw [hget r hr])

/-- Witness for C10: customizing the four living-room modern records under a
high-clutter analysis leaves the four knowledge-base cells untouched. -/
theorem enhancement_no_mutation_witness :
    (enhance_all (RecordStore.mk living_room_modern) [0, 1, 2, 3] clutteredAnalysis).1.cells.take
      (RecordStore.mk living_room_modern).cells.length = living_room_modern :=
  (enhancement_no_mutation (RecordStore.mk living_room_modern) [0, 1, 2, 3] clutteredAnalysis
    (by decide)).1
